import Mathlib

/-!
Verification model of the AiChemistForge TypeScript search core:
the Brave-search retry loop with its dual-window rate limiter
(src/tools/braveSearchTools.ts), the result parser
(src/services/searchService.ts, resultProcessor part), and the semantic
cache with its cosine-similarity engine (semanticCache / embeddingService).

Modelling conventions:
* timestamps and millisecond durations are integers (JS numbers used as
  integral millisecond counts);
* the random draw of Math.random and the fractional jitter arithmetic are
  exact rationals;
* JS strings handled by the parser are lists of characters, with the JS
  split / trim / startsWith built-ins given their standard semantics;
* embedding vectors are lists of reals, sqrt is the exact real square
  root (idealising IEEE doubles);
* thrown JS exceptions are modelled with Except, and every catch block of
  the source is reflected as explicit handling of the error case;
* external effects (Date.now, fetch, Math.random, the embedding model and
  the sqlite statements) are supplied by explicit environment records, so
  one execution of the code is a pure function of its environment.
-/

namespace Brave

/-- RATE_LIMIT.perSecond from braveSearchTools.ts. -/
def perSecondLimit : ℕ := 1

/-- RATE_LIMIT.perMonth from braveSearchTools.ts. -/
def perMonthLimit : ℕ := 2000

/-- RETRY_CONFIG.maxAttempts. -/
def maxAttempts : ℕ := 3

/-- RETRY_CONFIG.initialDelayMs. -/
def initialDelayMs : ℤ := 1000

/-- RETRY_CONFIG.maxDelayMs. -/
def maxDelayMs : ℤ := 10000

/-- RETRY_CONFIG.backoffMultiplier. -/
def backoffMultiplier : ℤ := 2

/-- RETRY_CONFIG.jitterFactor. -/
def jitterFactor : ℚ := 1/10

/-- The module-level requestCount object: the two rolling counters and
their window reset boundaries (ms since epoch). -/
structure RequestCount where
  second : ℕ
  month : ℕ
  lastSecondReset : ℤ
  lastMonthReset : ℤ
deriving Repr, DecidableEq

/-- The reason payload carried by a failed rate-limit check (the
template strings of the source, reduced to their data). -/
inductive RateReason where
  /-- Monthly limit reached; payload is the days-until-reset figure
  printed by the source message. -/
  | monthly (daysUntilReset : ℤ)
  /-- Per-second limit reached; payload is the raw (unclamped) wait time
  printed by the source message. -/
  | perSecond (waitTime : ℤ)
deriving Repr, DecidableEq

/-- Return value of checkRateLimit. -/
structure RateCheck where
  canProceed : Bool
  waitTimeMs : ℤ
  reason : Option RateReason
deriving Repr, DecidableEq

/-- Math.ceil on an exact integer quotient (the divisor is positive at
every use site). -/
def jsCeilDiv (a b : ℤ) : ℤ := -((-a).fdiv b)

/-- checkRateLimit from braveSearchTools.ts: rolls the two windows over,
then checks the monthly (hard) and per-second (soft) limits.  The
function mutates the module state, so the model returns the check result
together with the updated state. -/
def checkRateLimit (st : RequestCount) (now : ℤ) : RateCheck × RequestCount :=
  let st := if now - st.lastSecondReset ≥ 1000 then
    { st with second := 0, lastSecondReset := now } else st
  let st := if now - st.lastMonthReset ≥ 2592000000 then
    { st with month := 0, lastMonthReset := now } else st
  if st.month ≥ perMonthLimit then
    (⟨false, 0, some (.monthly (jsCeilDiv (2592000000 - (now - st.lastMonthReset)) 86400000))⟩, st)
  else if st.second ≥ perSecondLimit then
    let waitTime := 1000 - (now - st.lastSecondReset)
    (⟨false, max 0 waitTime, some (.perSecond waitTime)⟩, st)
  else
    (⟨true, 0, none⟩, st)

/-- incrementRateLimit from braveSearchTools.ts: bumps both counters by
one after a successful API call. -/
def incrementRateLimit (st : RequestCount) : RequestCount :=
  { st with second := st.second + 1, month := st.month + 1 }

/-- Math.round: round half towards positive infinity. -/
def jsRound (q : ℚ) : ℤ := ⌊q + 1/2⌋

/-- addJitter from braveSearchTools.ts; r is the Math.random draw. -/
def addJitter (delayMs : ℚ) (r : ℚ) : ℤ :=
  jsRound (delayMs + delayMs * jitterFactor * (r - 1/2))

/-- One raw web result of the Brave JSON payload; the three fields are
optional in the wire format and defaulted during formatting. -/
structure RawResult where
  title : Option String
  description : Option String
  url : Option String
deriving Repr, DecidableEq

/-- JS truthy-or-default: v || d (undefined and the empty string both
fall back to the default). -/
def jsOrDefault (v : Option String) (d : String) : String :=
  match v with
  | none => d
  | some s => if s = "" then d else s

/-- The formatting of a successful response body done at the end of
performBraveSearch. -/
def formatBraveResults (rs : List RawResult) : String :=
  let results := rs.map (fun r =>
    (jsOrDefault r.title "N/A", jsOrDefault r.description "N/A", jsOrDefault r.url "#"))
  if results.length = 0 then
    "No results found for your query."
  else
    String.intercalate "\n\n" (results.map (fun r =>
      "Title: " ++ r.1 ++ "\nDescription: " ++ r.2.1 ++ "\nURL: " ++ r.2.2))

/-- The observable outcome of one fetch call against the Brave API. -/
inductive FetchOutcome where
  /-- HTTP 429 response, optionally carrying a parsed retry-after header
  value in seconds. -/
  | status429 (retryAfter : Option ℤ)
  /-- A non-ok, non-429 HTTP response. -/
  | httpError (status : ℕ)
  /-- The request was aborted by the 10 s timeout (AbortError). -/
  | timeout
  /-- Any other thrown error. -/
  | failure (msg : String)
  /-- An ok response whose JSON parsed to the given web results. -/
  | success (results : List RawResult)
deriving Repr, DecidableEq

/-- The error finally thrown out of performBraveSearch. -/
inductive BraveError where
  /-- Monthly quota exceeded (reason message of the rate check). -/
  | quotaExhausted (daysUntilReset : ℤ)
  /-- The wrapped lastError value recorded on a 429 at the given
  attempt. -/
  | rateLimit429 (attempt : ℕ)
  /-- The wrapped lastError value recorded on a timeout at the given
  attempt. -/
  | timeoutWrapped (attempt : ℕ)
  /-- Fresh error thrown after a 429 on the last attempt. -/
  | exhausted429
  /-- Non-ok, non-429 HTTP response error. -/
  | apiError (status : ℕ)
  /-- The raw AbortError rethrown when the last attempt timed out. -/
  | abortError
  /-- Any other error rethrown unchanged. -/
  | other (msg : String)
  /-- The fallback error of the line after the loop. -/
  | noAttempts
deriving Repr, DecidableEq

/-- The external world of one performBraveSearch execution: Date.now at
the start of iteration k, the outcome of the j-th fetch call, and the
Math.random draw of the j-th addJitter call. -/
structure LoopEnv where
  time : ℕ → ℤ
  fetch : ℕ → FetchOutcome
  rand : ℕ → ℚ

/-- Everything observable about one execution: the value returned or the
error thrown, the final rate-limit state, the number of fetch calls, the
number of incrementRateLimit calls, and the slept jittered delays in
order. -/
structure RunResult where
  result : Except BraveError String
  counts : RequestCount
  fetches : ℕ
  commits : ℕ
  sleeps : List ℤ

/-- The while loop of performBraveSearch.  fuel is the number of loop
iterations still permitted (maxAttempts - attempt); attempt, the fetch
counter, the commit counter and the sleep log are threaded explicitly.
The branch structure follows the source line by line, including the
fall-through to the fetch when a soft rate-limit check fails on the last
attempt. -/
def braveLoop (env : LoopEnv) : ℕ → ℕ → RequestCount → Option BraveError →
    ℕ → ℕ → List ℤ → RunResult
  | 0, _, st, lastError, fetches, commits, sleeps =>
    ⟨.error (lastError.getD .noAttempts), st, fetches, commits, sleeps⟩
  | fuel + 1, a, st, lastError, fetches, commits, sleeps =>
    let attempt := a + 1
    let now := env.time a
    let rlc := checkRateLimit st now
    let check := rlc.1
    let st := rlc.2
    if check.canProceed = false ∧ check.waitTimeMs = 0 then
      ⟨.error (match check.reason with
        | some (.monthly d) => .quotaExhausted d
        | _ => .other "Monthly rate limit exceeded."),
       st, fetches, commits, sleeps⟩
    else if check.canProceed = false ∧ attempt < maxAttempts then
      let w := addJitter (check.waitTimeMs : ℚ) (env.rand sleeps.length)
      braveLoop env fuel attempt st lastError fetches commits (sleeps ++ [w])
    else
      match env.fetch fetches with
      | .status429 retryAfter =>
        let retryDelayMs : ℤ := match retryAfter with
          | some s => s * 1000
          | none => min (initialDelayMs * backoffMultiplier ^ (attempt - 1)) maxDelayMs
        let lastError := some (BraveError.rateLimit429 attempt)
        if attempt < maxAttempts then
          let w := addJitter (retryDelayMs : ℚ) (env.rand sleeps.length)
          braveLoop env fuel attempt st lastError (fetches + 1) commits (sleeps ++ [w])
        else
          ⟨.error .exhausted429, st, fetches + 1, commits, sleeps⟩
      | .httpError status =>
        ⟨.error (.apiError status), st, fetches + 1, commits, sleeps⟩
      | .timeout =>
        let lastError := some (BraveError.timeoutWrapped attempt)
        if attempt < maxAttempts then
          let w := addJitter ((initialDelayMs * backoffMultiplier ^ (attempt - 1) : ℤ) : ℚ)
            (env.rand sleeps.length)
          braveLoop env fuel attempt st lastError (fetches + 1) commits (sleeps ++ [w])
        else
          ⟨.error .abortError, st, fetches + 1, commits, sleeps⟩
      | .failure msg =>
        ⟨.error (.other msg), st, fetches + 1, commits, sleeps⟩
      | .success rs =>
        let st := incrementRateLimit st
        ⟨.ok (formatBraveResults rs), st, fetches + 1, commits + 1, sleeps⟩

/-- performBraveSearch from braveSearchTools.ts, as a function of the
environment and the module-level rate state at entry. -/
def performBraveSearch (env : LoopEnv) (st : RequestCount) : RunResult :=
  braveLoop env maxAttempts 0 st none 0 0 []

end Brave

namespace Parser

/-- A JS string, as its character sequence. -/
abbrev Str := List Char

/-- JS whitespace test for the characters relevant to trim here. -/
def isJsSpace (c : Char) : Bool :=
  c = ' ' ∨ c = '\n' ∨ c = '\t' ∨ c = '\r'

/-- String.prototype.trim: strip leading and trailing whitespace. -/
def jsTrim (s : Str) : Str :=
  ((s.dropWhile isJsSpace).reverse.dropWhile isJsSpace).reverse

/-- Worker for jsSplit: scans the string left to right, cutting at every
non-overlapping occurrence of the separator.  The fuel argument only
bounds the recursion and is never exhausted when it starts above the
string length. -/
def jsSplitGo (sep : Str) : ℕ → Str → Str → List Str
  | 0, s, cur => [cur.reverse ++ s]
  | fuel + 1, s, cur =>
    match s with
    | [] => [cur.reverse]
    | c :: rest =>
      if sep ≠ [] ∧ sep.isPrefixOf (c :: rest) then
        cur.reverse :: jsSplitGo sep fuel ((c :: rest).drop sep.length) []
      else
        jsSplitGo sep fuel rest (c :: cur)

/-- String.prototype.split with a non-empty string separator. -/
def jsSplit (sep : Str) (s : Str) : List Str :=
  jsSplitGo sep (s.length + 1) s []

/-- SearchResult from resultProcessor: the description stays optional
because the source casts a partial record after only checking title and
url. -/
structure SearchResult where
  title : Str
  description : Option Str
  url : Str
deriving Repr, DecidableEq

/-- The partial record accumulated while scanning the lines of one
block. -/
structure PartialResult where
  title : Option Str
  description : Option Str
  url : Option Str
deriving Repr, DecidableEq

/-- One step of the line loop of parseSearchResults: a labelled line
overwrites the corresponding field with its trimmed remainder. -/
def parseLineStep (r : PartialResult) (line : Str) : PartialResult :=
  if "Title: ".data.isPrefixOf line then
    { r with title := some (jsTrim (line.drop 7)) }
  else if "Description: ".data.isPrefixOf line then
    { r with description := some (jsTrim (line.drop 13)) }
  else if "URL: ".data.isPrefixOf line then
    { r with url := some (jsTrim (line.drop 5)) }
  else r

/-- The body of the block loop: fold the lines, then push an item only
when both title and url are present and truthy (JS truthiness drops the
empty string). -/
def parseBlockLines (lines : List Str) : Option SearchResult :=
  let r := lines.foldl parseLineStep ⟨none, none, none⟩
  match r.title, r.url with
  | some t, some u =>
    if t ≠ [] ∧ u ≠ [] then some ⟨t, r.description, u⟩ else none
  | _, _ => none

/-- One step of the block loop: push the parsed item when the block
yields one. -/
def parseBlockStep (results : List SearchResult) (block : Str) : List SearchResult :=
  match parseBlockLines (jsSplit ['\n'] block) with
  | some item => results.concat item
  | none => results

/-- The block loop of parseSearchResults over an explicit block list. -/
def parseBlocks (blocks : List Str) : List SearchResult :=
  blocks.foldl parseBlockStep []

/-- parseSearchResults from resultProcessor: split the raw text on blank
lines, drop whitespace-only blocks, and run the block loop. -/
def parseSearchResults (rawText : Str) : List SearchResult :=
  parseBlocks ((jsSplit ['\n', '\n'] rawText).filter (fun b => jsTrim b ≠ []))

end Parser

namespace Cache

/-- The error thrown by cosineSimilarity on vectors of unequal length,
carrying the two lengths of the message template. -/
inductive CosError where
  | dimensionMismatch (la lb : ℕ)
deriving Repr, DecidableEq

/-- Dot product as accumulated by the loop of cosineSimilarity. -/
def dotProduct (a b : List ℝ) : ℝ :=
  (List.zip a b).foldl (fun acc p => acc + p.1 * p.2) 0

/-- Sum of squares as accumulated by the loop of cosineSimilarity. -/
def sumSquares (a : List ℝ) : ℝ :=
  a.foldl (fun acc x => acc + x * x) 0

/-- cosineSimilarity from embeddingService.ts: throws on a dimension
mismatch, returns 0 when either magnitude is zero, and otherwise the
normalised dot product. -/
noncomputable def cosineSimilarity (vecA vecB : List ℝ) : Except CosError ℝ :=
  if vecA.length ≠ vecB.length then
    .error (.dimensionMismatch vecA.length vecB.length)
  else
    let dot := dotProduct vecA vecB
    let magnitudeA := Real.sqrt (sumSquares vecA)
    let magnitudeB := Real.sqrt (sumSquares vecB)
    if magnitudeA = 0 ∨ magnitudeB = 0 then .ok 0
    else .ok (dot / (magnitudeA * magnitudeB))

/-- MODEL_CONFIG.cache.similarityThreshold. -/
noncomputable def similarityThreshold : ℝ := 0.92

/-- One row of the search_cache table; the embedding blob is modelled as
the vector it decodes to. -/
structure CacheEntry where
  id : ℕ
  query : String
  query_embedding : List ℝ
  results : String
  search_type : String
  timestamp : ℤ
  ttl : ℤ

/-- CacheHit as returned by findSimilar. -/
structure CacheHit where
  results : String
  timestamp : ℤ
  query : String
  similarity : ℝ

/-- The failures the semantic cache can hit, used for thrown errors. -/
inductive CacheError where
  /-- The database could not be created or opened. -/
  | initFailure
  /-- The embedding model failed. -/
  | embedFailure
deriving Repr, DecidableEq

/-- The external world of the cache service: the embedding model, the
result of opening the database (none models a throwing open or mkdir),
and whether the sqlite INSERT and DELETE statements succeed. -/
structure CacheEnv where
  embed : String → Except CacheError (List ℝ)
  initDb : Option (List CacheEntry)
  insertOk : Bool
  deleteOk : Bool

/-- The mutable service state: this.db (none before initialisation, the
table rows once open) plus the next AUTOINCREMENT id. -/
structure CacheState where
  db : Option (List CacheEntry)
  nextId : ℕ

/-- SemanticCacheService.initialize: idempotent once this.db is set;
rethrows when opening the database fails. -/
def initializeCache (env : CacheEnv) (st : CacheState) : Except CacheError CacheState :=
  match st.db with
  | some _ => .ok st
  | none =>
    match env.initDb with
    | some rows => .ok ⟨some rows, rows.foldl (fun m e => max m (e.id + 1)) 1⟩
    | none => .error .initFailure

/-- The rows of an open database (defaulting to no rows, which is only
used in states where this.db is already known to be set). -/
def rowsOf (st : CacheState) : List CacheEntry :=
  st.db.getD []

/-- SemanticCacheService.cleanupExpired: deletes every row with
timestamp + ttl < now; a failing DELETE is caught and leaves the table
unchanged. -/
def cleanupExpired (env : CacheEnv) (st : CacheState) (now : ℤ) : CacheState :=
  match st.db with
  | none => st
  | some rows =>
    if env.deleteOk then
      { st with db := some (rows.filter (fun e => ¬ (e.timestamp + e.ttl < now))) }
    else st

/-- The scan loop of findSimilar: walks the candidate rows keeping the
best entry whose similarity beats both the running best and the
threshold; a throwing cosineSimilarity propagates out of the loop. -/
noncomputable def scanBest (qemb : List ℝ) :
    List CacheEntry → ℝ → Option CacheHit → Except CosError (Option CacheHit)
  | [], _, best => .ok best
  | e :: rest, bestSim, best =>
    match cosineSimilarity qemb e.query_embedding with
    | .error err => .error err
    | .ok similarity =>
      if similarity > bestSim ∧ similarity ≥ similarityThreshold then
        scanBest qemb rest similarity (some ⟨e.results, e.timestamp, e.query, similarity⟩)
      else
        scanBest qemb rest bestSim best

/-- The SELECT of findSimilar: rows of the requested search type, most
recent first, capped at 100. -/
noncomputable def selectCandidates (rows : List CacheEntry) (searchType : String) :
    List CacheEntry :=
  (((rows.filter (fun e => e.search_type = searchType)).mergeSort
    (fun a b => decide (b.timestamp ≤ a.timestamp))).take 100)

/-- SemanticCacheService.findSimilar: lazily initialises (outside the
try block, so an initialisation failure propagates), embeds the query,
purges expired rows, scans the candidates, and maps any error of the try
block to a null hit. -/
noncomputable def findSimilar (env : CacheEnv) (st : CacheState)
    (query searchType : String) (now : ℤ) :
    Except CacheError (Option CacheHit × CacheState) :=
  match (if st.db.isNone then initializeCache env st else .ok st) with
  | .error e => .error e
  | .ok st =>
    match env.embed query with
    | .error _ => .ok (none, st)
    | .ok queryEmbedding =>
      let st := cleanupExpired env st now
      match scanBest queryEmbedding (selectCandidates (rowsOf st) searchType) 0 none with
      | .error _ => .ok (none, st)
      | .ok best => .ok (best, st)

/-- SemanticCacheService.store: lazily initialises (again outside the
try block), then embeds and inserts inside a catch-all that swallows any
failure. -/
def store (env : CacheEnv) (st : CacheState)
    (query searchType results : String) (ttlSeconds : ℤ) (now : ℤ) :
    Except CacheError CacheState :=
  match (if st.db.isNone then initializeCache env st else .ok st) with
  | .error e => .error e
  | .ok st =>
    match env.embed query with
    | .error _ => .ok st
    | .ok queryEmbedding =>
      if env.insertOk then
        .ok { st with
          db := some ((rowsOf st).concat
            ⟨st.nextId, query, queryEmbedding, results, searchType, now, ttlSeconds * 1000⟩),
          nextId := st.nextId + 1 }
      else .ok st

end Cache

namespace Brave

/-- Whether an execution outcome is a normal return rather than a
thrown error. -/
def isOkResult : Except BraveError String → Bool
  | .ok _ => true
  | .error _ => false

/-- The commit counter of a run grows by one exactly when the run ends
in a normal return: the only return path of the loop is the success
branch, which is also the only caller of incrementRateLimit. -/
lemma braveLoop_commits (env : LoopEnv) :
    ∀ (fuel a : ℕ) (st : RequestCount) (le : Option BraveError) (f c : ℕ) (s : List ℤ),
    (braveLoop env fuel a st le f c s).commits =
      c + (if isOkResult (braveLoop env fuel a st le f c s).result then 1 else 0) := by
  intro fuel
  induction fuel with
  | zero =>
    intro a st le f c s
    simp [braveLoop, isOkResult]
  | succ fuel ih =>
    intro a st le f c s
    simp only [braveLoop]
    split
    · simp [isOkResult]
    · split
      · exact ih _ _ _ _ _ _
      · split
        · split
          · exact ih _ _ _ _ _ _
          · simp [isOkResult]
        · simp [isOkResult]
        · split
          · exact ih _ _ _ _ _ _
          · simp [isOkResult]
        · simp [isOkResult]
        · simp [isOkResult]

/-- Each loop iteration performs at most one fetch, so the fetch counter
rises by at most the remaining fuel. -/
lemma braveLoop_fetches_le (env : LoopEnv) :
    ∀ (fuel a : ℕ) (st : RequestCount) (le : Option BraveError) (f c : ℕ) (s : List ℤ),
    (braveLoop env fuel a st le f c s).fetches ≤ f + fuel := by
  intro fuel
  induction fuel with
  | zero =>
    intro a st le f c s
    simp [braveLoop]
  | succ fuel ih =>
    intro a st le f c s
    simp only [braveLoop]
    split
    · simp
    · split
      · exact le_trans (ih _ _ _ _ _ _) (by omega)
      · split
        · split
          · exact le_trans (ih _ _ _ _ _ _) (by omega)
          · simp
        · simp
        · split
          · exact le_trans (ih _ _ _ _ _ _) (by omega)
          · simp
        · simp
        · simp

/-- C1: rate-limit quota is consumed only by successful upstream
responses.  checkRateLimit never raises either counter (it only keeps or
resets them), incrementRateLimit raises both counters by exactly one,
and a performBraveSearch execution calls incrementRateLimit exactly once
when it returns normally (one successful upstream response) and never
when it throws (all attempts failed or were aborted). -/
theorem claim_C1 :
    (∀ (st : RequestCount) (now : ℤ),
      ((checkRateLimit st now).2.second = st.second ∨ (checkRateLimit st now).2.second = 0) ∧
      ((checkRateLimit st now).2.month = st.month ∨ (checkRateLimit st now).2.month = 0)) ∧
    (∀ st : RequestCount,
      incrementRateLimit st = ⟨st.second + 1, st.month + 1, st.lastSecondReset, st.lastMonthReset⟩) ∧
    (∀ (env : LoopEnv) (st : RequestCount),
      (performBraveSearch env st).commits =
        if isOkResult (performBraveSearch env st).result then 1 else 0) := by
  refine ⟨?_, ?_, ?_⟩
  · intro st now
    simp only [checkRateLimit]
    split_ifs <;> simp
  · intro st
    rfl
  · intro env st
    have h := braveLoop_commits env maxAttempts 0 st none 0 0 []
    simpa [performBraveSearch] using h

/-- When the monthly counter is at its cap and the long window has not
rolled over, checkRateLimit returns the terminal no-wait refusal with
the days-until-reset reason. -/
lemma checkRateLimit_monthly (st : RequestCount) (now : ℤ)
    (h1 : st.month ≥ perMonthLimit) (h2 : now - st.lastMonthReset < 2592000000) :
    (checkRateLimit st now).1 =
      ⟨false, 0, some (.monthly (jsCeilDiv (2592000000 - (now - st.lastMonthReset)) 86400000))⟩ := by
  simp only [checkRateLimit]
  split_ifs <;> simp_all <;> omega

/-- When the monthly counter is under its cap, the per-second counter is
at its cap and the short window has not rolled over, checkRateLimit
returns the soft refusal carrying the remaining window time. -/
lemma checkRateLimit_soft (st : RequestCount) (now : ℤ)
    (h1 : st.month < perMonthLimit) (h2 : st.second ≥ perSecondLimit)
    (h3 : now - st.lastSecondReset < 1000) :
    (checkRateLimit st now).1 =
      ⟨false, max 0 (1000 - (now - st.lastSecondReset)),
        some (.perSecond (1000 - (now - st.lastSecondReset)))⟩ := by
  simp only [checkRateLimit]
  split_ifs <;> simp_all <;> omega

/-- C2: once the long-window count has reached the cap, the next check
is the terminal refusal (no wait, days-until-reset reason), and the
caller throws the quota-exhausted error at once, with no fetch, no
sleep, and no quota commit; a reached short-window cap instead yields a
non-terminal refusal whose wait equals the remaining time in the short
window. -/
theorem claim_C2 :
    (∀ (st : RequestCount) (now : ℤ),
      st.month ≥ perMonthLimit → now - st.lastMonthReset < 2592000000 →
      (checkRateLimit st now).1 =
        ⟨false, 0, some (.monthly (jsCeilDiv (2592000000 - (now - st.lastMonthReset)) 86400000))⟩) ∧
    (∀ (env : LoopEnv) (st : RequestCount),
      st.month ≥ perMonthLimit → env.time 0 - st.lastMonthReset < 2592000000 →
      (performBraveSearch env st).result =
        .error (.quotaExhausted (jsCeilDiv (2592000000 - (env.time 0 - st.lastMonthReset)) 86400000)) ∧
      (performBraveSearch env st).fetches = 0 ∧
      (performBraveSearch env st).commits = 0 ∧
      (performBraveSearch env st).sleeps = []) ∧
    (∀ (st : RequestCount) (now : ℤ),
      st.month < perMonthLimit → st.second ≥ perSecondLimit → now - st.lastSecondReset < 1000 →
      (checkRateLimit st now).1.canProceed = false ∧
      (checkRateLimit st now).1.waitTimeMs = 1000 - (now - st.lastSecondReset) ∧
      (checkRateLimit st now).1.waitTimeMs > 0 ∧
      (checkRateLimit st now).1.reason = some (.perSecond (1000 - (now - st.lastSecondReset)))) := by
  refine ⟨checkRateLimit_monthly, ?_, ?_⟩
  · intro env st h1 h2
    have hc := checkRateLimit_monthly st (env.time 0) h1 h2
    refine ⟨?_, ?_, ?_, ?_⟩ <;>
      simp [performBraveSearch, maxAttempts, braveLoop, hc]
  · intro st now h1 h2 h3
    have hc := checkRateLimit_soft st now h1 h2 h3
    rw [hc]
    refine ⟨rfl, ?_, ?_, rfl⟩ <;> simp <;> omega

/-- Witness for C2 at concrete states: a capped monthly counter at time
zero, a full run that throws the quota error without fetching, and a
capped per-second counter midway through its window. -/
theorem claim_C2_witness :
    ((checkRateLimit ⟨0, 2000, 0, 0⟩ 0).1 =
      ⟨false, 0, some (.monthly (jsCeilDiv (2592000000 - ((0:ℤ) - 0)) 86400000))⟩) ∧
    ((performBraveSearch ⟨fun _ => 0, fun _ => .timeout, fun _ => 0⟩ ⟨0, 2000, 0, 0⟩).result =
      .error (.quotaExhausted (jsCeilDiv (2592000000 - ((0:ℤ) - 0)) 86400000)) ∧
     (performBraveSearch ⟨fun _ => 0, fun _ => .timeout, fun _ => 0⟩ ⟨0, 2000, 0, 0⟩).fetches = 0 ∧
     (performBraveSearch ⟨fun _ => 0, fun _ => .timeout, fun _ => 0⟩ ⟨0, 2000, 0, 0⟩).commits = 0 ∧
     (performBraveSearch ⟨fun _ => 0, fun _ => .timeout, fun _ => 0⟩ ⟨0, 2000, 0, 0⟩).sleeps = []) ∧
    ((checkRateLimit ⟨1, 0, 0, 0⟩ 500).1.canProceed = false ∧
     (checkRateLimit ⟨1, 0, 0, 0⟩ 500).1.waitTimeMs = 1000 - ((500:ℤ) - 0) ∧
     (checkRateLimit ⟨1, 0, 0, 0⟩ 500).1.waitTimeMs > 0 ∧
     (checkRateLimit ⟨1, 0, 0, 0⟩ 500).1.reason = some (.perSecond (1000 - ((500:ℤ) - 0)))) :=
  ⟨claim_C2.1 ⟨0, 2000, 0, 0⟩ 0 (by norm_num [perMonthLimit]) (by norm_num),
   claim_C2.2.1 ⟨fun _ => 0, fun _ => .timeout, fun _ => 0⟩ ⟨0, 2000, 0, 0⟩
     (by norm_num [perMonthLimit]) (by norm_num),
   claim_C2.2.2 ⟨1, 0, 0, 0⟩ 500 (by norm_num [perMonthLimit])
     (by norm_num [perSecondLimit]) (by norm_num)⟩

/-- A state with a clear short window and spare monthly quota always
passes checkRateLimit, and keeps doing so afterwards. -/
lemma checkRateLimit_allows (st : RequestCount) (now : ℤ)
    (h1 : st.second = 0) (h2 : st.month < perMonthLimit) :
    (checkRateLimit st now).1 = ⟨true, 0, none⟩ ∧
    (checkRateLimit st now).2.second = 0 ∧
    (checkRateLimit st now).2.month < perMonthLimit := by
  simp only [checkRateLimit]
  split_ifs <;> simp_all [perSecondLimit, perMonthLimit] <;> omega

/-- The failures the retry loop keeps retrying: a timeout or any 429. -/
def retryableOutcome (o : FetchOutcome) : Prop :=
  o = .timeout ∨ ∃ ra, o = .status429 ra

/-- The error thrown when the last permitted attempt fails retryably:
the fresh exhaustion error after a 429, the rethrown AbortError after a
timeout. -/
def finalRetryError : FetchOutcome → BraveError
  | .status429 _ => .exhausted429
  | _ => .abortError

/-- With an always-allowing limiter state and only retryable fetch
outcomes, every unit of fuel performs exactly one fetch and the run ends
in the error of the last outcome. -/
lemma braveLoop_retryable (env : LoopEnv) :
    ∀ (fuel a : ℕ) (st : RequestCount) (le : Option BraveError) (f c : ℕ) (s : List ℤ),
    1 ≤ fuel → a + fuel = maxAttempts →
    st.second = 0 → st.month < perMonthLimit →
    (∀ j, retryableOutcome (env.fetch j)) →
    (braveLoop env fuel a st le f c s).fetches = f + fuel ∧
    (braveLoop env fuel a st le f c s).result =
      .error (finalRetryError (env.fetch (f + fuel - 1))) := by
  intro fuel
  induction fuel with
  | zero =>
    intro a st le f c s hfu
    omega
  | succ fuel ih =>
    intro a st le f c s hfu hsum h1 h2 hr
    obtain ⟨hc1, hc2, hc3⟩ := checkRateLimit_allows st (env.time a) h1 h2
    have hsum3 : a + (fuel + 1) = 3 := by simpa [maxAttempts] using hsum
    simp only [braveLoop, hc1]
    norm_num
    rcases Nat.eq_zero_or_pos fuel with hz | hpos
    · subst hz
      have hlast : ¬ (a + 1 < maxAttempts) := by simp [maxAttempts]; omega
      rcases hr f with hto | ⟨ra, h429⟩
      · simp [hto, hlast, finalRetryError]
      · simp [h429, hlast, finalRetryError]
    · have hlt : a + 1 < maxAttempts := by simp [maxAttempts]; omega
      rcases hr f with hto | ⟨ra, h429⟩
      · simp only [hto, hlt, if_true]
        refine ⟨?_, ?_⟩
        · rw [show f + (fuel + 1) = f + 1 + fuel by omega]
          exact (ih (a + 1) _ _ (f + 1) c _ hpos (by omega) hc2 hc3 hr).1
        · rw [show f + fuel = f + 1 + fuel - 1 by omega]
          exact (ih (a + 1) _ _ (f + 1) c _ hpos (by omega) hc2 hc3 hr).2
      · simp only [h429, hlt, if_true]
        refine ⟨?_, ?_⟩
        · rw [show f + (fuel + 1) = f + 1 + fuel by omega]
          exact (ih (a + 1) _ _ (f + 1) c _ hpos (by omega) hc2 hc3 hr).1
        · rw [show f + fuel = f + 1 + fuel - 1 by omega]
          exact (ih (a + 1) _ _ (f + 1) c _ hpos (by omega) hc2 hc3 hr).2

/-- C3: every execution performs at most maxAttempts fetches; and when
the limiter always allows (clear short window, spare monthly quota) and
every fetch outcome is retryable (timeout or 429), exactly maxAttempts
fetches happen and the run throws the error of the last failed
attempt. -/
theorem claim_C3 :
    (∀ (env : LoopEnv) (st : RequestCount),
      (performBraveSearch env st).fetches ≤ maxAttempts) ∧
    (∀ (env : LoopEnv) (st : RequestCount),
      (∀ j, retryableOutcome (env.fetch j)) → st.second = 0 → st.month < perMonthLimit →
      (performBraveSearch env st).fetches = maxAttempts ∧
      (performBraveSearch env st).result =
        .error (finalRetryError (env.fetch (maxAttempts - 1)))) := by
  constructor
  · intro env st
    have h := braveLoop_fetches_le env maxAttempts 0 st none 0 0 []
    simpa [performBraveSearch] using h
  · intro env st hr h1 h2
    have h := braveLoop_retryable env maxAttempts 0 st none 0 0 []
      (by norm_num [maxAttempts]) (by norm_num) h1 h2 hr
    simpa [performBraveSearch] using h

/-- Witness for C3: with a fresh limiter state and a fetch that always
times out, the run fetches exactly three times and rethrows the abort
error. -/
theorem claim_C3_witness :
    (performBraveSearch ⟨fun _ => 0, fun _ => .timeout, fun _ => 0⟩ ⟨0, 0, 0, 0⟩).fetches =
      maxAttempts ∧
    (performBraveSearch ⟨fun _ => 0, fun _ => .timeout, fun _ => 0⟩ ⟨0, 0, 0, 0⟩).result =
      .error .abortError :=
  claim_C3.2 ⟨fun _ => 0, fun _ => .timeout, fun _ => 0⟩ ⟨0, 0, 0, 0⟩
    (fun _ => Or.inl rfl) rfl (by norm_num [perMonthLimit])

/-- Environment of the C5 run: the clock reads 0 at the first iteration
and 1100 afterwards, every fetch times out, and every random draw is the
neutral 1/2 (zero jitter). -/
def envC5 : LoopEnv := ⟨fun k => if k = 0 then 0 else 1100, fun _ => .timeout, fun _ => 1/2⟩

/-- Rate state of the C5 run: the short window already holds one request
(taken at time 0), monthly counter clear. -/
def stC5 : RequestCount := ⟨1, 0, 0, 0⟩

/-- C5: a soft rate-limit wait consumes a loop attempt.  Starting with a
full short window, the first iteration sleeps on the limiter and the run
then performs only 2 fetches before throwing, not the 3 the comment
(retry without incrementing attempt) and the specification promise.  The
attempt counter is incremented at the top of the loop, before the
continue. -/
theorem claim_C5 :
    (performBraveSearch envC5 stC5).fetches = 2 ∧
    (performBraveSearch envC5 stC5).result = .error .abortError ∧
    (performBraveSearch envC5 stC5).sleeps = [1000, 2000] := by
  refine ⟨?_, ?_, ?_⟩ <;>
    norm_num [performBraveSearch, braveLoop, checkRateLimit, maxAttempts, envC5, stC5,
      perSecondLimit, perMonthLimit, initialDelayMs, backoffMultiplier, maxDelayMs,
      incrementRateLimit, addJitter, jsRound, jitterFactor]

/-- Environment of the C9 counterexample: every fetch returns HTTP 429
with a Retry-After header of 12 seconds; random draws are 1/2. -/
def envC9 : LoopEnv := ⟨fun _ => 0, fun _ => .status429 (some 12), fun _ => 1/2⟩

/-- Counterexample to C9: a Retry-After of 12 seconds makes the loop
sleep 12000 ms, which exceeds maxDelayMs * (1 + jitterFactor) = 11000;
the provider-supplied delay is never clamped. -/
theorem claim_C9_counterexample :
    (performBraveSearch envC9 ⟨0, 0, 0, 0⟩).sleeps = [12000, 12000] ∧
    ¬ (((12000 : ℤ) : ℚ) ≤ (maxDelayMs : ℚ) * (1 + jitterFactor)) := by
  constructor
  · norm_num [performBraveSearch, braveLoop, checkRateLimit, maxAttempts, envC9,
      perSecondLimit, perMonthLimit, incrementRateLimit, addJitter, jsRound, jitterFactor]
  · norm_num [maxDelayMs, jitterFactor]

/-- A jittered delay built from a base delay between 0 and maxDelayMs
and a unit random draw stays between 0 and 10500 ms. -/
lemma addJitter_bounds (d r : ℚ) (hd0 : 0 ≤ d) (hd : d ≤ 10000)
    (hr0 : 0 ≤ r) (hr1 : r < 1) :
    0 ≤ addJitter d r ∧ ((addJitter d r : ℤ) : ℚ) ≤ 10500 := by
  unfold addJitter jsRound jitterFactor
  constructor
  · apply Int.le_floor.mpr
    push_cast
    nlinarith
  · have hle : ⌊d + d * (1/10) * (r - 1/2) + 1/2⌋ ≤ ⌊(10500 : ℚ) + 1/2⌋ :=
      Int.floor_le_floor (by nlinarith)
    have h2 : ⌊(10500 : ℚ) + 1/2⌋ = 10500 := by norm_num
    rw [h2] at hle
    exact_mod_cast hle

/-- With a clock that has not run backwards past the stored window
boundary, the wait demanded by checkRateLimit is between 0 and the
1000 ms short window. -/
lemma checkRateLimit_wait_bounds (st : RequestCount) (now : ℤ)
    (h : st.lastSecondReset ≤ now) :
    0 ≤ (checkRateLimit st now).1.waitTimeMs ∧
    (checkRateLimit st now).1.waitTimeMs ≤ 1000 := by
  simp only [checkRateLimit]
  split_ifs <;> simp_all [perSecondLimit]

/-- checkRateLimit leaves the short-window boundary alone or moves it to
the current clock value. -/
lemma checkRateLimit_lsr (st : RequestCount) (now : ℤ) :
    (checkRateLimit st now).2.lastSecondReset = now ∨
    (checkRateLimit st now).2.lastSecondReset = st.lastSecondReset := by
  simp only [checkRateLimit]
  split_ifs <;> simp

/-- Under a non-decreasing clock, unit random draws and no
provider-supplied Retry-After header, every delay the loop sleeps stays
between 0 and 10500 ms. -/
lemma braveLoop_sleeps_bounded (env : LoopEnv)
    (hmono : ∀ k, env.time k ≤ env.time (k + 1))
    (hr : ∀ j, 0 ≤ env.rand j ∧ env.rand j < 1)
    (hra : ∀ j v, env.fetch j ≠ .status429 (some v)) :
    ∀ (fuel a : ℕ) (st : RequestCount) (le : Option BraveError) (f c : ℕ) (s : List ℤ),
    a + fuel = maxAttempts →
    st.lastSecondReset ≤ env.time a →
    (∀ d ∈ s, 0 ≤ d ∧ ((d : ℤ) : ℚ) ≤ 10500) →
    ∀ d ∈ (braveLoop env fuel a st le f c s).sleeps, 0 ≤ d ∧ ((d : ℤ) : ℚ) ≤ 10500 := by
  intro fuel
  induction fuel with
  | zero =>
    intro a st le f c s hsum hlsr hs
    simpa [braveLoop] using hs
  | succ fuel ih =>
    intro a st le f c s hsum hlsr hs
    have hnext : (checkRateLimit st (env.time a)).2.lastSecondReset ≤ env.time (a + 1) := by
      rcases checkRateLimit_lsr st (env.time a) with h | h <;> rw [h]
      · exact hmono a
      · exact le_trans hlsr (hmono a)
    have hwait := checkRateLimit_wait_bounds st (env.time a) hlsr
    simp only [braveLoop]
    split
    · simpa using hs
    · split
      · refine ih (a + 1) _ _ f c _ (by omega) hnext ?_
        intro d hd
        rcases List.mem_append.mp hd with hd | hd
        · exact hs d hd
        · have hd' : d = addJitter ((checkRateLimit st (env.time a)).1.waitTimeMs : ℚ)
              (env.rand s.length) := by simpa using hd
          subst hd'
          exact addJitter_bounds ((checkRateLimit st (env.time a)).1.waitTimeMs : ℚ)
            (env.rand s.length) (by exact_mod_cast hwait.1)
            (by exact_mod_cast le_trans hwait.2 (by norm_num)) (hr s.length).1 (hr s.length).2
      · split
        · rename_i retryAfter heq
          split
          · cases retryAfter with
            | some v => exact absurd heq (hra f v)
            | none =>
              refine ih (a + 1) _ _ (f + 1) c _ (by omega) hnext ?_
              intro d hd
              rcases List.mem_append.mp hd with hd | hd
              · exact hs d hd
              · have hd' : d = addJitter
                    ((min (initialDelayMs * backoffMultiplier ^ (a + 1 - 1)) maxDelayMs : ℤ) : ℚ)
                    (env.rand s.length) := by simpa using hd
                subst hd'
                refine addJitter_bounds _ (env.rand s.length) ?_ ?_
                  (hr s.length).1 (hr s.length).2
                · have h : (0:ℤ) ≤ min (initialDelayMs * backoffMultiplier ^ (a + 1 - 1)) maxDelayMs := by
                    simp only [le_min_iff, initialDelayMs, backoffMultiplier, maxDelayMs]
                    constructor
                    · positivity
                    · norm_num
                  exact_mod_cast h
                · have h : min (initialDelayMs * backoffMultiplier ^ (a + 1 - 1)) maxDelayMs ≤ 10000 := by
                    simp [maxDelayMs]
                  exact_mod_cast h
          · simpa using hs
        · simpa using hs
        · rename_i heq
          split
          · rename_i hlt
            have ha : a ≤ 1 := by
              simp only [maxAttempts] at hlt
              omega
            refine ih (a + 1) _ _ (f + 1) c _ (by omega) hnext ?_
            intro d hd
            rcases List.mem_append.mp hd with hd | hd
            · exact hs d hd
            · have hd' : d = addJitter
                  ((initialDelayMs * backoffMultiplier ^ (a + 1 - 1) : ℤ) : ℚ)
                  (env.rand s.length) := by simpa using hd
              subst hd'
              have hpow : (initialDelayMs * backoffMultiplier ^ (a + 1 - 1) : ℤ) ≤ 2000 := by
                interval_cases a <;> norm_num [initialDelayMs, backoffMultiplier]
              have hpow0 : (0:ℤ) ≤ initialDelayMs * backoffMultiplier ^ (a + 1 - 1) := by
                simp only [initialDelayMs, backoffMultiplier]
                positivity
              refine addJitter_bounds _ (env.rand s.length) ?_ ?_
                (hr s.length).1 (hr s.length).2
              · exact_mod_cast hpow0
              · exact_mod_cast le_trans hpow (by norm_num)
          · simpa using hs
        · simpa using hs
        · simpa using hs

/-- The sleeps of a run are all non-negative and at most
maxDelayMs * (1 + jitterFactor) milliseconds. -/
def sleepsInRange (r : RunResult) : Prop :=
  ∀ d ∈ r.sleeps, 0 ≤ d ∧ ((d : ℤ) : ℚ) ≤ (maxDelayMs : ℚ) * (1 + jitterFactor)

/-- C9 amended: provided the clock never runs backwards, the random
draws lie in the unit interval and the provider never supplies a
Retry-After header, every jittered delay the retry loop sleeps is
non-negative and at most maxDelayMs * (1 + jitterFactor) = 11000 ms
(indeed at most 10500 ms); a provider-supplied Retry-After breaks the
bound, as the counterexample shows. -/
theorem claim_C9 (env : LoopEnv) (st : RequestCount)
    (hmono : ∀ k, env.time k ≤ env.time (k + 1))
    (hlsr : st.lastSecondReset ≤ env.time 0)
    (hr : ∀ j, 0 ≤ env.rand j ∧ env.rand j < 1)
    (hra : ∀ j v, env.fetch j ≠ .status429 (some v)) :
    sleepsInRange (performBraveSearch env st) := by
  intro d hd
  have h := braveLoop_sleeps_bounded env hmono hr hra maxAttempts 0 st none 0 0 []
    (by norm_num) hlsr (by simp) d (by simpa [performBraveSearch] using hd)
  exact ⟨h.1, le_trans h.2 (by norm_num [maxDelayMs, jitterFactor])⟩

/-- Witness for C9 amended: the always-timing-out environment with a
frozen clock satisfies every hypothesis, so its run sleeps only
in-range delays. -/
theorem claim_C9_witness :
    sleepsInRange (performBraveSearch ⟨fun _ => 0, fun _ => .timeout, fun _ => 0⟩ ⟨0, 0, 0, 0⟩) :=
  claim_C9 ⟨fun _ => 0, fun _ => .timeout, fun _ => 0⟩ ⟨0, 0, 0, 0⟩
    (fun _ => le_refl 0) (le_refl 0) (fun _ => by norm_num) (fun _ _ => by simp)

end Brave

namespace Parser

/-- Whether some line of the block starts with the given label. -/
def containsLine (p : Str) (block : Str) : Bool :=
  (jsSplit ['\n'] block).any (fun l => p.isPrefixOf l)

/-- A line that does not carry the Title label leaves the accumulated
title alone. -/
lemma parseLineStep_title (r : PartialResult) (l : Str)
    (h : ¬ ("Title: ".data.isPrefixOf l = true)) :
    (parseLineStep r l).title = r.title := by
  simp only [parseLineStep]
  split_ifs <;> simp_all

/-- A line that does not carry the URL label leaves the accumulated url
alone. -/
lemma parseLineStep_url (r : PartialResult) (l : Str)
    (h : ¬ ("URL: ".data.isPrefixOf l = true)) :
    (parseLineStep r l).url = r.url := by
  simp only [parseLineStep]
  split_ifs <;> simp_all

/-- Without any Title line the fold never sets a title. -/
lemma foldl_title_none :
    ∀ (lines : List Str) (r : PartialResult),
    (∀ l ∈ lines, ¬ ("Title: ".data.isPrefixOf l = true)) →
    (lines.foldl parseLineStep r).title = r.title := by
  intro lines
  induction lines with
  | nil => intro r _; rfl
  | cons l ls ih =>
    intro r h
    have h1 := h l (by simp)
    have h2 : ∀ x ∈ ls, ¬ ("Title: ".data.isPrefixOf x = true) :=
      fun x hx => h x (by simp [hx])
    simp only [List.foldl_cons]
    rw [ih (parseLineStep r l) h2, parseLineStep_title r l h1]

/-- Without any URL line the fold never sets a url. -/
lemma foldl_url_none :
    ∀ (lines : List Str) (r : PartialResult),
    (∀ l ∈ lines, ¬ ("URL: ".data.isPrefixOf l = true)) →
    (lines.foldl parseLineStep r).url = r.url := by
  intro lines
  induction lines with
  | nil => intro r _; rfl
  | cons l ls ih =>
    intro r h
    have h1 := h l (by simp)
    have h2 : ∀ x ∈ ls, ¬ ("URL: ".data.isPrefixOf x = true) :=
      fun x hx => h x (by simp [hx])
    simp only [List.foldl_cons]
    rw [ih (parseLineStep r l) h2, parseLineStep_url r l h1]

/-- An emitted block item always carries a nonempty title and url. -/
lemma parseBlockLines_some (lines : List Str) (item : SearchResult)
    (h : parseBlockLines lines = some item) :
    item.title ≠ [] ∧ item.url ≠ [] := by
  simp only [parseBlockLines] at h
  rcases h1 : (lines.foldl parseLineStep ⟨none, none, none⟩).title with _ | t <;>
    rcases h2 : (lines.foldl parseLineStep ⟨none, none, none⟩).url with _ | u <;>
    rw [h1, h2] at h <;> simp at h
  obtain ⟨hc, rfl⟩ := h
  exact hc

/-- Every parsed item traces back to a block the block loop accepted. -/
lemma parseBlocks_mem :
    ∀ (blocks : List Str) (acc : List SearchResult) (item : SearchResult),
    item ∈ blocks.foldl parseBlockStep acc →
    item ∈ acc ∨ ∃ b ∈ blocks, parseBlockLines (jsSplit ['\n'] b) = some item := by
  intro blocks
  induction blocks with
  | nil =>
    intro acc item h
    exact Or.inl h
  | cons b bs ih =>
    intro acc item h
    rcases ih (parseBlockStep acc b) item h with h' | ⟨b', hb', hp⟩
    · simp only [parseBlockStep] at h'
      rcases hpb : parseBlockLines (jsSplit ['\n'] b) with _ | it <;> rw [hpb] at h'
      · exact Or.inl h'
      · have h2 : item ∈ acc ∨ item = it := by simpa using h'
        rcases h2 with h'' | rfl
        · exact Or.inl h''
        · exact Or.inr ⟨b, by simp, hpb⟩
    · exact Or.inr ⟨b', by simp [hb'], hp⟩

/-- C7 amended: the parser emits an item only when the block contains
both labelled lines with nonempty values: every emitted item carries a
nonempty title and url, a block without a Title line or without a URL
line is dropped, and the three-block scenario still parses to exactly
the two well-formed items A and B.  The if direction of the original
claim fails when a labelled line carries an empty value, as the
counterexample shows. -/
theorem claim_C7 :
    (∀ (blocks : List Str) (item : SearchResult),
      item ∈ parseBlocks blocks → item.title ≠ [] ∧ item.url ≠ []) ∧
    (∀ lines : List Str,
      (∀ l ∈ lines, ¬ ("Title: ".data.isPrefixOf l = true)) ∨
      (∀ l ∈ lines, ¬ ("URL: ".data.isPrefixOf l = true)) →
      parseBlockLines lines = none) ∧
    (parseSearchResults
        ("Title: A\nURL: http://x.com\n\nDescription: no title or url\n\nTitle: B\nURL: http://y.com".data) =
      [⟨"A".data, none, "http://x.com".data⟩, ⟨"B".data, none, "http://y.com".data⟩]) := by
  refine ⟨?_, ?_, by decide⟩
  · intro blocks item h
    rcases parseBlocks_mem blocks [] item h with h' | ⟨b, _, hp⟩
    · simp at h'
    · exact parseBlockLines_some _ _ hp
  · intro lines h
    simp only [parseBlockLines]
    rcases h with h | h
    · rw [foldl_title_none lines ⟨none, none, none⟩ h]
    · rw [foldl_url_none lines ⟨none, none, none⟩ h]
      rcases (lines.foldl parseLineStep ⟨none, none, none⟩).title with _ | t <;> rfl

/-- Witness for C7 amended: the first scenario block emits the item A
with nonempty fields, and a description-only block is dropped. -/
theorem claim_C7_witness :
    ((⟨"A".data, none, "http://x.com".data⟩ : SearchResult).title ≠ [] ∧
     (⟨"A".data, none, "http://x.com".data⟩ : SearchResult).url ≠ []) ∧
    parseBlockLines [("Description: no title or url".data)] = none :=
  ⟨claim_C7.1 ["Title: A\nURL: http://x.com".data] ⟨"A".data, none, "http://x.com".data⟩
      (by decide),
   claim_C7.2.1 [("Description: no title or url".data)] (Or.inl (by decide))⟩

/-- Counterexample to C7: a block containing both a Title line and a URL
line, where the Title line carries an empty value, parses to no items at
all, refuting the if direction of the claim. -/
theorem claim_C7_counterexample :
    containsLine "Title: ".data ("Title: \nURL: http://x.com".data) = true ∧
    containsLine "URL: ".data ("Title: \nURL: http://x.com".data) = true ∧
    jsSplit ['\n', '\n'] ("Title: \nURL: http://x.com".data) =
      [("Title: \nURL: http://x.com".data)] ∧
    parseSearchResults ("Title: \nURL: http://x.com".data) = [] := by
  refine ⟨by decide, by decide, by decide, by decide⟩

end Parser

namespace Cache

/-- Whether cosineSimilarity returned a number rather than throwing. -/
def simOk : Except CosError ℝ → Bool
  | .ok _ => true
  | .error _ => false

/-- The running sum of squares never drops below its accumulator. -/
lemma foldl_sq_le (l : List ℝ) :
    ∀ acc : ℝ, acc ≤ l.foldl (fun a x => a + x * x) acc := by
  induction l with
  | nil => intro acc; simp
  | cons x xs ih =>
    intro acc
    calc acc ≤ acc + x * x := by nlinarith
    _ ≤ xs.foldl (fun a x => a + x * x) (acc + x * x) := ih _

/-- Sums of squares are non-negative. -/
lemma sumSquares_nonneg (l : List ℝ) : 0 ≤ sumSquares l :=
  foldl_sq_le l 0

/-- C10: cosineSimilarity is defined exactly on equal-dimension inputs:
unequal lengths throw the dimension-mismatch error carrying both
lengths, equal lengths always return a number, and a zero-magnitude
input yields the number 0. -/
theorem claim_C10 :
    (∀ a b : List ℝ, a.length ≠ b.length →
      cosineSimilarity a b = .error (.dimensionMismatch a.length b.length)) ∧
    (∀ a b : List ℝ, a.length = b.length → simOk (cosineSimilarity a b) = true) ∧
    (∀ a b : List ℝ, a.length = b.length → sumSquares a = 0 ∨ sumSquares b = 0 →
      cosineSimilarity a b = .ok 0) := by
  refine ⟨?_, ?_, ?_⟩
  · intro a b h
    simp [cosineSimilarity, h]
  · intro a b h
    simp only [cosineSimilarity, h, ne_eq, not_true_eq_false, if_false, reduceIte]
    split_ifs <;> simp [simOk]
  · intro a b h h2
    rcases h2 with h2 | h2 <;>
      simp [cosineSimilarity, h, h2, Real.sqrt_zero]

/-- Witness for C10 at concrete vectors: a 1-vs-0 length mismatch
throws, equal singletons return a number, and a zero vector yields 0. -/
theorem claim_C10_witness :
    cosineSimilarity [1] [] = .error (.dimensionMismatch 1 0) ∧
    simOk (cosineSimilarity [1] [1]) = true ∧
    cosineSimilarity [0] [1] = .ok 0 :=
  ⟨claim_C10.1 [1] [] (by simp),
   claim_C10.2.1 [1] [1] rfl,
   claim_C10.2.2 [0] [1] rfl (Or.inl (by norm_num [sumSquares]))⟩

/-- C8 amended: store reports success exactly when the database is
already open or can be opened; embedding failures and insert failures
are swallowed, but an initialisation failure on a lazily-initialising
call propagates to the caller (it happens before the try block). -/
theorem claim_C8 :
    ∀ (env : CacheEnv) (st : CacheState) (q t r : String) (ttl now : ℤ),
    (∃ st', store env st q t r ttl now = .ok st') ↔ (st.db.isSome ∨ env.initDb.isSome) := by
  intro env st q t r ttl now
  rcases hdb : st.db with _ | rows
  · rcases hinit : env.initDb with _ | rows0
    · simp [store, initializeCache, hdb, hinit]
    · rcases hemb : env.embed q with e | emb
      · simp [store, initializeCache, hdb, hinit, hemb]
      · by_cases hins : env.insertOk <;>
          simp [store, initializeCache, hdb, hinit, hemb, hins]
  · rcases hemb : env.embed q with e | emb
    · simp [store, hdb, hemb]
    · by_cases hins : env.insertOk <;> simp [store, hdb, hemb, hins]

/-- A cache environment whose database cannot be opened. -/
noncomputable def envBadInit : CacheEnv := ⟨fun _ => .ok [1], none, true, true⟩

/-- Counterexample to C8: calling store before initialisation with a
failing database open propagates the initialisation error instead of
returning normally. -/
theorem claim_C8_counterexample :
    store envBadInit ⟨none, 1⟩ "q" "web" "R" 3600 0 = .error .initFailure := by
  simp [store, initializeCache, envBadInit]

/-- Witness for C8 amended at a concrete initialised state: store
reports success. -/
theorem claim_C8_witness :
    ∃ st', store envBadInit ⟨some [], 1⟩ "q" "web" "R" 3600 0 = .ok st' :=
  (claim_C8 envBadInit ⟨some [], 1⟩ "q" "web" "R" 3600 0).mpr (Or.inl rfl)

end Cache

namespace Cache

/-- Any hit produced by the scan loop is either built from one of the
scanned rows or was already the running best. -/
lemma scanBest_sourced (qemb : List ℝ) :
    ∀ (l : List CacheEntry) (bestSim : ℝ) (best : Option CacheHit) (h : CacheHit),
    scanBest qemb l bestSim best = .ok (some h) →
    (∃ e ∈ l, h.results = e.results ∧ h.timestamp = e.timestamp ∧ h.query = e.query) ∨
      best = some h := by
  intro l
  induction l with
  | nil =>
    intro bestSim best h hs
    simp only [scanBest] at hs
    exact Or.inr (by simpa using hs)
  | cons e rest ih =>
    intro bestSim best h hs
    simp only [scanBest] at hs
    rcases hcs : cosineSimilarity qemb e.query_embedding with err | sim <;> simp only [hcs] at hs
    · simp at hs
    · split_ifs at hs with hcond
      · rcases ih _ _ h hs with ⟨e', he', hp⟩ | hbest
        · exact Or.inl ⟨e', by simp [he'], hp⟩
        · refine Or.inl ⟨e, by simp, ?_⟩
          have : (⟨e.results, e.timestamp, e.query, sim⟩ : CacheHit) = h :=
            Option.some_injective _ hbest
          rw [← this]
          exact ⟨rfl, rfl, rfl⟩
      · rcases ih _ _ h hs with ⟨e', he', hp⟩ | hbest
        · exact Or.inl ⟨e', by simp [he'], hp⟩
        · exact Or.inr hbest

end Cache

namespace Cache

/-- Any hit findSimilar returns is built from a row of the post-cleanup
table that carries the requested search type; when the expiry DELETE
succeeded, the source row also survived the expiry filter. -/
lemma findSimilar_sourced (env : CacheEnv) (st : CacheState)
    (q t : String) (now : ℤ) (h : CacheHit) (st' : CacheState)
    (hfind : findSimilar env st q t now = .ok (some h, st')) :
    ∃ e ∈ rowsOf st', e.search_type = t ∧ h.results = e.results ∧
      h.timestamp = e.timestamp ∧ h.query = e.query ∧
      (env.deleteOk = true → now ≤ e.timestamp + e.ttl) := by
  rw [findSimilar] at hfind
  split at hfind
  · exact absurd hfind (by simp)
  · rename_i st1 hini
    split at hfind
    · simp at hfind
    · rename_i emb hemb
      simp only [] at hfind
      split at hfind
      · simp at hfind
      · rename_i best hscan
        have h1 := Except.ok.inj hfind
        have hb : best = some h := congrArg Prod.fst h1
        have hst : cleanupExpired env st1 now = st' := congrArg Prod.snd h1
        subst hb
        rcases scanBest_sourced emb _ 0 none h hscan with ⟨e, he, ha, ha2, ha3⟩ | hnone
        · have he1 : e ∈ ((rowsOf (cleanupExpired env st1 now)).filter
              (fun x => x.search_type = t)).mergeSort
                (fun a b => decide (b.timestamp ≤ a.timestamp)) :=
            List.mem_of_mem_take (by simpa [selectCandidates] using he)
          have he2 : e ∈ (rowsOf (cleanupExpired env st1 now)).filter
              (fun x => x.search_type = t) := List.mem_mergeSort.mp he1
          obtain ⟨he3, he4⟩ := List.mem_filter.mp he2
          have htype : e.search_type = t := by simpa using he4
          refine ⟨e, by rw [← hst]; exact he3, htype, ha, ha2, ha3, ?_⟩
          intro hdel
          rcases hdb1 : st1.db with _ | rows1
          · simp [cleanupExpired, hdb1, rowsOf] at he3
          · simp [cleanupExpired, hdb1, hdel, rowsOf, List.mem_filter] at he3
            omega
        · simp at hnone

/-- A cache environment whose embedding model maps every query to the
unit vector and whose database operations all succeed. -/
noncomputable def envOk : CacheEnv := ⟨fun _ => .ok [1], some [], true, true⟩

/-- The row written by storing (q, web, R1) with a one-hour TTL at
time 5. -/
noncomputable def entryWeb : CacheEntry := ⟨1, "q", [1], "R1", "web", 5, 3600000⟩

/-- Cache state holding only the web row. -/
noncomputable def stWeb : CacheState := ⟨some [entryWeb], 2⟩

/-- The row written by storing (q, web, R1) with ttlSeconds = 0 at
time 5. -/
noncomputable def entryTtl0 : CacheEntry := ⟨1, "q", [1], "R1", "web", 5, 0⟩

/-- Cache state holding only the zero-TTL row. -/
noncomputable def stTtl0 : CacheState := ⟨some [entryTtl0], 2⟩

/-- cosineSimilarity of the unit vector with itself is 1. -/
lemma csim_unit : cosineSimilarity [1] [1] = .ok 1 := by
  rw [cosineSimilarity]
  norm_num [dotProduct, sumSquares, Real.sqrt_one]

/-- C6 (partition isolation): every hit findSimilar returns under a
search type is built from a stored row of that very search type, so a
row stored under web is never the source of a code hit whatever its
similarity; and concretely, after storing the only row under web, a
code lookup misses. -/
theorem claim_C6 :
    (∀ (env : CacheEnv) (st : CacheState) (q t : String) (now : ℤ)
      (h : CacheHit) (st' : CacheState),
      findSimilar env st q t now = .ok (some h, st') →
      ∃ e ∈ rowsOf st', e.search_type = t ∧ h.results = e.results ∧
        h.timestamp = e.timestamp ∧ h.query = e.query) ∧
    (store envOk ⟨some [], 1⟩ "q" "web" "R1" 3600 5 = .ok stWeb ∧
     findSimilar envOk stWeb "q2" "code" 5 = .ok (none, stWeb)) := by
  refine ⟨?_, ?_, ?_⟩
  · intro env st q t now h st' hfind
    obtain ⟨e, he, h1, h2, h3, h4, _⟩ := findSimilar_sourced env st q t now h st' hfind
    exact ⟨e, he, h1, h2, h3, h4⟩
  · simp [store, envOk, stWeb, entryWeb, rowsOf]
  · have hne : (("web" : String) = "code") = False := by simp
    rw [findSimilar]
    norm_num [envOk, stWeb, entryWeb, cleanupExpired, rowsOf, selectCandidates, scanBest, hne]

/-- The row stored under code used by the C6 witness. -/
noncomputable def entryCode : CacheEntry := ⟨1, "q", [1], "R1", "code", 5, 3600000⟩

/-- Cache state holding only the code row. -/
noncomputable def stCode : CacheState := ⟨some [entryCode], 2⟩

/-- Concrete evaluation: the code lookup over the single code row hits
it with similarity 1. -/
lemma findSimilar_stCode :
    findSimilar envOk stCode "q" "code" 5 = .ok (some ⟨"R1", 5, "q", 1⟩, stCode) := by
  rw [findSimilar]
  norm_num [envOk, stCode, entryCode, cleanupExpired, rowsOf, selectCandidates, scanBest,
    csim_unit, similarityThreshold]

/-- Witness for C6 applied at the concrete code lookup. -/
theorem claim_C6_witness :
    ∃ e ∈ rowsOf stCode, e.search_type = "code" ∧
      (⟨"R1", 5, "q", 1⟩ : CacheHit).results = e.results ∧
      (⟨"R1", 5, "q", 1⟩ : CacheHit).timestamp = e.timestamp ∧
      (⟨"R1", 5, "q", 1⟩ : CacheHit).query = e.query :=
  claim_C6.1 envOk stCode "q" "code" 5 ⟨"R1", 5, "q", 1⟩ stCode findSimilar_stCode

/-- C4 amended: when the expiry DELETE succeeds, every hit findSimilar
returns is built from a row with now ≤ createdAt + ttlMs — the
non-strict inequality.  The strict version of the claim fails: a row
whose TTL boundary equals the current time (in particular ttlMs = 0 at
the store timestamp) survives the sweep and is returned, as the
counterexample shows. -/
theorem claim_C4 :
    ∀ (env : CacheEnv) (st : CacheState) (q t : String) (now : ℤ)
      (h : CacheHit) (st' : CacheState),
    env.deleteOk = true →
    findSimilar env st q t now = .ok (some h, st') →
    ∃ e ∈ rowsOf st', h.timestamp = e.timestamp ∧ now ≤ e.timestamp + e.ttl := by
  intro env st q t now h st' hdel hfind
  obtain ⟨e, he, _, _, h2, _, h5⟩ := findSimilar_sourced env st q t now h st' hfind
  exact ⟨e, he, h2, h5 hdel⟩

/-- Concrete evaluation: the lookup over the single zero-TTL row at its
own store timestamp still hits it. -/
lemma findSimilar_stTtl0 :
    findSimilar envOk stTtl0 "q" "web" 5 = .ok (some ⟨"R1", 5, "q", 1⟩, stTtl0) := by
  rw [findSimilar]
  norm_num [envOk, stTtl0, entryTtl0, cleanupExpired, rowsOf, selectCandidates, scanBest,
    csim_unit, similarityThreshold]

/-- Witness for C4 amended, applied at the zero-TTL lookup. -/
theorem claim_C4_witness :
    ∃ e ∈ rowsOf stTtl0, (⟨"R1", 5, "q", 1⟩ : CacheHit).timestamp = e.timestamp ∧
      (5:ℤ) ≤ e.timestamp + e.ttl :=
  claim_C4 envOk stTtl0 "q" "web" 5 ⟨"R1", 5, "q", 1⟩ stTtl0 rfl findSimilar_stTtl0

/-- Counterexample to C4: a row stored with ttlMs = 0 at time 5 is
returned by findSimilar at time 5, yet 5 < createdAt + ttlMs fails, so
an entry that is dead in the strict live-window sense of the claim is
served. -/
theorem claim_C4_counterexample :
    store envOk ⟨some [], 1⟩ "q" "web" "R1" 0 5 = .ok stTtl0 ∧
    findSimilar envOk stTtl0 "q" "web" 5 = .ok (some ⟨"R1", 5, "q", 1⟩, stTtl0) ∧
    ¬ ((5:ℤ) < entryTtl0.timestamp + entryTtl0.ttl) := by
  refine ⟨?_, findSimilar_stTtl0, ?_⟩
  · simp [store, envOk, stTtl0, entryTtl0, rowsOf]
  · norm_num [entryTtl0]

end Cache
